import Mathlib

/-!
Verification of the guardrails `Guard` orchestration layer
(`src/guardrails/guard.py`) against its natural-language specification.

The Python source is shallowly embedded: methods become pure Lean
functions, the mutable guard attributes become an explicit `GuardState`
record threaded through the functions, Python `Optional` values become
`Option`, raised exceptions become explicit error constructors, and
Python truthiness of optional strings and lists is made explicit.
External collaborators (validator hydration via `get_validator`, the
remote API client, the LLM adapters) are abstracted as parameters or
input data, matching the boundary drawn by the specification.
-/

namespace Guardrails

/-- A resolved validator (`guardrails.validator_base.Validator`), restricted
to the fields `guard.py` reads: `rail_alias`, `on_fail_descriptor`, the
argument bag returned by `get_args()`, and the metadata keys the validator
declares as required (consumed by `verify_metadata_requirements`). -/
structure Validator where
  rail_alias : String
  on_fail_descriptor : String
  args : List (String × String)
  required_metadata_keys : List String
deriving DecidableEq, Repr

/-- `guardrails_api_client.ValidatorReference`: the declarative record
stored in `Guard.validators`. -/
structure ValidatorReference where
  id : String
  onPath : String
  on_fail : String
  kwargs : List (String × String)
deriving DecidableEq, Repr

/-- `Guard._validator_map`: a Python dict from path to list of validators,
embedded as an association list with at most one entry per key. -/
abbrev ValidatorMap := List (String × List Validator)

/-- Python `dict.get(k, [])`. -/
def mapGet (m : ValidatorMap) (k : String) : List Validator :=
  match m.find? (fun p => p.fst == k) with
  | some p => p.snd
  | none => []

/-- Python `dict[k] = v`: replace the entry if the key is present,
otherwise insert it. -/
def mapSet : ValidatorMap → String → List Validator → ValidatorMap
  | [], k, v => [(k, v)]
  | (k1, v1) :: rest, k, v =>
    if k1 == k then (k, v) :: rest else (k1, v1) :: mapSet rest k v

/-- One serialized argument from `_fill_validator_map`:
`Template("{${arg}}").safe_substitute(arg=arg)`, i.e. the value wrapped
in braces. -/
def serializedArg (arg : String) : String := "\x7b" ++ arg ++ "\x7d"

/-- The `string_syntax` built by `_fill_validator_map` for a reference:
`"${id}: ${args}"` when there are serialized arguments, else just the id. -/
def validatorSpecString (ref : ValidatorReference) : String :=
  let serializedArgs := ref.kwargs.map (fun p => serializedArg p.snd)
  if serializedArgs.length > 0 then
    ref.id ++ ": " ++ String.intercalate (" ") serializedArgs
  else ref.id

/-- The body of the `for ref in self.validators` loop of
`Guard._fill_validator_map`.  `mk` abstracts the external
`get_validator((string_syntax, ref.on_fail))` hydration call, which is an
out-of-scope collaborator; it receives the string syntax and the on-fail
descriptor. -/
def fillStep (mk : String → String → Validator) (m : ValidatorMap)
    (ref : ValidatorReference) : ValidatorMap :=
  let entry := mapGet m ref.onPath
  let v := (entry.filter (fun v =>
    v.rail_alias == ref.id && v.on_fail_descriptor == ref.on_fail
      && decide (v.args = ref.kwargs))).head?
  match v with
  | some _ => m
  | none => mapSet m ref.onPath (entry ++ [mk (validatorSpecString ref) ref.on_fail])

/-- `Guard._fill_validator_map`: fold the loop body over the stored
validator references, starting from the current map (empty right after
`__init__` assigns `self._validator_map = \x7b\x7d`). -/
def fill_validator_map (mk : String → String → Validator) (m : ValidatorMap)
    (refs : List ValidatorReference) : ValidatorMap :=
  refs.foldl (fillStep mk) m

/-- `Guard.__add_validator`, restricted to its effect on the validator map.
It first raises when the output type is not STRING; it also appends a
`ValidatorReference` to `self.validators` and the validator to
`self._validators`, which do not affect the map and are omitted here.
The map effect is `self._validator_map[on] = self._validator_map.get(on, [])`
followed by `self._validator_map[on].append(validator)`. -/
def add_validator (outputTypeIsString : Bool) (m : ValidatorMap)
    (v : Validator) (onPath : String) : Except String ValidatorMap :=
  if !outputTypeIsString then
    Except.error ("The `use` method is only available for string output types.")
  else
    let onPath := if onPath == "output" then ("$") else onPath
    Except.ok (mapSet m onPath (mapGet m onPath ++ [v]))

/-- `Guard.use`: hydrates a validator via the external `get_validator`
(abstracted away: the caller passes the hydrated validator) and delegates
to `__add_validator`. -/
def use (outputTypeIsString : Bool) (m : ValidatorMap) (v : Validator)
    (onPath : String) : Except String ValidatorMap :=
  add_validator outputTypeIsString m v onPath

/-- `Guard.use_many`: checks the output type, then adds each hydrated
validator in order through `__add_validator`. -/
def use_many (outputTypeIsString : Bool) (m : ValidatorMap)
    (vs : List Validator) (onPath : String) : Except String ValidatorMap :=
  if !outputTypeIsString then
    Except.error ("The `use_many` method is only available for string output types.")
  else
    vs.foldlM (fun acc v => add_validator outputTypeIsString acc v onPath) m

/-- The invariant of claim C7: every path key present in the validator map
is associated with a non-empty list of validators. -/
def validatorMapInvariant (m : ValidatorMap) : Prop :=
  ∀ p ∈ m, p.2 ≠ []

/-- Modelled from the spec: `verify_metadata_requirements` is imported from
`guardrails.utils.validator_utils`, whose source is not part of this file.
Per the specification, every validator that declares required metadata
fields must find them present in the supplied metadata map, and the check
reports all missing keys, not just the first.  `metadataKeys` is the key
set of the supplied metadata dict. -/
def verify_metadata_requirements (metadataKeys : List String)
    (validators : List Validator) : List String :=
  (validators.flatMap (fun v => v.required_metadata_keys)).filter
    (fun k => !metadataKeys.contains k)

/-- The message of the `ValueError` raised by `_execute` on missing
metadata keys. -/
def missingKeysMessage (keys : List String) : String :=
  "Missing required metadata keys: " ++ String.intercalate (", ") keys

/-- Message of the first precondition `RuntimeError` in `_execute`. -/
def msgMissingApiOrOutput : String :=
  "\x27llm_api\x27 or \x27llm_output\x27 must be provided!"

/-- Message of the second precondition `RuntimeError` in `_execute`. -/
def msgMissingPromptOrHistory : String :=
  "\x27prompt\x27 or \x27msg_history\x27 must be provided in order to call an LLM!"

/-- Message of the `RuntimeError` raised in `__exec` when `_num_reasks`
is still `None` after `_set_num_reasks`. -/
def msgNumReasksNone : String :=
  "`num_reasks` is `None` after calling `configure()`. This should never happen."

/-- Python truthiness of an `Optional[str]`: `None` and the empty string
are falsy. -/
def optStrTruthy : Option String → Bool
  | none => false
  | some s => !(s == "")

/-- Python truthiness of an `Optional[List[...]]`: `None` and the empty
list are falsy.  Message-history entries are opaque here. -/
def optListTruthy : Option (List String) → Bool
  | none => false
  | some l => !l.isEmpty

/-- The mutable attributes of a `Guard` object that the routing and
configuration code reads or writes.  `apiClientConfigured` is
`self._api_client is not None`; `baseModelPresent` is
`self._base_model is not None`; `numReasks` is `self._num_reasks`. -/
structure GuardState where
  apiClientConfigured : Bool
  baseModelPresent : Bool
  validators : List Validator
  numReasks : Option Int
deriving DecidableEq, Repr

/-- `Guard._set_num_reasks`: an unconditional assignment to
`self._num_reasks`.  `__exec` calls it with the caller-supplied value,
which may be `None`. -/
def set_num_reasks (g : GuardState) (numReasks : Option Int) : GuardState :=
  { g with numReasks := numReasks }

/-- The per-call arguments of `Guard._execute` that routing depends on.
`llmApiPresent` is `llm_api is not None`; `isCoroutineFn` abstracts
`asyncio.iscoroutinefunction(llm_api)`; `supportedServerSide` abstracts
the external `model_is_supported_server_side(llm_api, *args, **kwargs)`;
`stream` is the value of `kwargs.get("stream", False)`;
`metadataKeys` is the key set of the `metadata` dict. -/
structure ExecArgs where
  llmApiPresent : Bool
  isCoroutineFn : Bool
  supportedServerSide : Bool
  llmOutput : Option String
  prompt : Option String
  instructions : Option String
  msgHistory : Option (List String)
  metadataKeys : List String
  numReasks : Option Int
  fullSchemaReask : Option Bool
  stream : Option Bool
deriving DecidableEq, Repr

/-- The four execution strategies of the router. -/
inductive Strategy where
  | remote
  | async
  | streaming
  | sync
deriving DecidableEq, Repr

/-- Result of `_execute`: one of the raised errors, or a routed execution
carrying the resolved `full_schema_reask` flag and retry budget. -/
inductive ExecResult where
  | runtimeError (msg : String)
  | valueError (msg : String) (missingKeys : List String)
  | routed (strategy : Strategy) (fullSchemaReask : Bool) (numReasks : Int)
deriving DecidableEq, Repr

/-- The strategy choice made by `__exec` (remote, then async) composed
with the `kwargs.get("stream", False)` dispatch inside `_exec_sync`
(streaming, then sync). -/
def selectStrategy (apiClientConfigured supportedServerSide isCoroutineFn
    stream : Bool) : Strategy :=
  if apiClientConfigured && supportedServerSide then Strategy.remote
  else if isCoroutineFn then Strategy.async
  else if stream then Strategy.streaming
  else Strategy.sync

/-- `Guard._execute` together with the inner `__exec` closure, up to the
point where exactly one execution strategy has been selected.  Faithful
to the source order: the two precondition `RuntimeError`s, the metadata
`ValueError`, then inside `__exec` the `full_schema_reask` resolution,
`_set_num_reasks` followed by the `None` check, and the strategy
dispatch.  Telemetry span creation, tracer context plumbing and the
pushing of the fresh `Call` onto `self._history` have no bearing on the
routing result and are omitted.  The returned `GuardState` reflects the
write performed by `_set_num_reasks`. -/
def execute (g : GuardState) (a : ExecArgs) : GuardState × ExecResult :=
  if !a.llmApiPresent && !optStrTruthy a.llmOutput then
    (g, ExecResult.runtimeError msgMissingApiOrOutput)
  else if !optStrTruthy a.llmOutput && a.llmApiPresent
      && !(optStrTruthy a.prompt || optListTruthy a.msgHistory) then
    (g, ExecResult.runtimeError msgMissingPromptOrHistory)
  else
    let missingKeys := verify_metadata_requirements a.metadataKeys g.validators
    if !missingKeys.isEmpty then
      (g, ExecResult.valueError (missingKeysMessage missingKeys) missingKeys)
    else
      let fullSchemaReask :=
        match a.fullSchemaReask with
        | none => g.baseModelPresent
        | some b => b
      let g2 := set_num_reasks g a.numReasks
      match g2.numReasks with
      | none => (g2, ExecResult.runtimeError msgNumReasksNone)
      | some nr =>
        (g2, ExecResult.routed
          (selectStrategy g.apiClientConfigured a.supportedServerSide
            a.isCoroutineFn (a.stream.getD false))
          fullSchemaReask nr)

/-- `Guard.configure`, restricted to its `num_reasks` effect:
`if num_reasks: self._set_num_reasks(num_reasks)`.  The tracer and
telemetry branches touch only external ambient state and are omitted. -/
def configure (g : GuardState) (numReasks : Option Int) : GuardState :=
  match numReasks with
  | some n => if n ≠ 0 then set_num_reasks g (some n) else g
  | none => g

/-- `Guard._exec_opts`: the per-guard default templates `parse` falls
back to. -/
structure ExecOpts where
  prompt : Option String
  instructions : Option String
deriving DecidableEq, Repr

/-- The `**kwargs` dict of `Guard.parse`, restricted to the keys the
method pops.  An outer `none` means the key is absent from the dict; the
inner value is the (possibly `None`) Python value stored under the key. -/
structure ParseKwargs where
  prompt : Option (Option String)
  instructions : Option (Option String)
  msgHistory : Option (Option (List String))
  stream : Option Bool
deriving DecidableEq, Repr

/-- Result of `Guard.parse`: either the `KeyError` escaping from
`kwargs.pop`, or the result of the inner `_execute` call. -/
inductive ParseResult where
  | keyError (key : String)
  | executed (result : GuardState × ExecResult)
deriving DecidableEq, Repr

/-- `Guard.parse`: computes `final_num_reasks` from the caller value, the
configured `self._num_reasks`, and whether an `llm_api` was supplied;
pops `prompt` and `instructions` with defaults from `self._exec_opts`;
pops `msg_history` with no default (a `KeyError` when the key is
absent); then delegates to `_execute`. -/
def parse (g : GuardState) (eo : ExecOpts) (llm_output : String)
    (llmApiPresent isCoroutineFn supportedServerSide : Bool)
    (metadataKeys : List String) (num_reasks : Option Int)
    (full_schema_reask : Option Bool) (kw : ParseKwargs) : ParseResult :=
  let finalNumReasks : Option Int :=
    match num_reasks with
    | some n => some n
    | none =>
      match g.numReasks with
      | some m => some m
      | none => if llmApiPresent then some 1 else some 0
  let prompt := match kw.prompt with
    | some v => v
    | none => eo.prompt
  let instructions := match kw.instructions with
    | some v => v
    | none => eo.instructions
  match kw.msgHistory with
  | none => ParseResult.keyError ("msg_history")
  | some mh =>
    ParseResult.executed (execute g
      { llmApiPresent := llmApiPresent
        isCoroutineFn := isCoroutineFn
        supportedServerSide := supportedServerSide
        llmOutput := some llm_output
        prompt := prompt
        instructions := instructions
        msgHistory := mh
        metadataKeys := metadataKeys
        numReasks := finalNumReasks
        fullSchemaReask := full_schema_reask
        stream := kw.stream })

/-- `guardrails.classes.validation.validation_result.FailResult`, restricted
to the two fields `_call_server` reconstructs. -/
structure FailResult where
  error_message : Option String
  fix_value : Option String
deriving DecidableEq, Repr

/-- `guardrails.utils.reask_utils.FieldReAsk`, restricted to the fields
this file reads and writes. -/
structure FieldReAsk where
  incorrect_value : Option String
  path : Option String
  fail_results : List FailResult
deriving DecidableEq, Repr

/-- `guardrails.classes.history.inputs.Inputs`, restricted to the fields
`_call_server` reconstructs.  The reconstructed `llm_api` adapter is an
external callable and is omitted. -/
structure Inputs where
  llm_output : Option String
  instructions : Option String
  prompt : Option String
  num_reasks : Int
  full_schema_reask : Option Bool
deriving DecidableEq, Repr

/-- `guardrails.classes.history.outputs.Outputs`, restricted to the fields
this file reads and writes. -/
structure Outputs where
  raw_output : Option String
  parsed_output : Option String
  validation_output : Option String
  reasks : List FieldReAsk
deriving DecidableEq, Repr

/-- `guardrails.classes.history.iteration.Iteration`: one generate and
validate round. -/
structure Iteration where
  inputs : Inputs
  outputs : Outputs
deriving DecidableEq, Repr

/-- `guardrails.classes.history.Call`: one logical invocation, holding its
ordered iterations. -/
structure Call where
  iterations : List Iteration
deriving DecidableEq, Repr

/-- `guardrails.classes.validation_outcome.ValidationOutcome`, restricted
to the four user-facing fields.  The schema-shaped validated output is
represented opaquely as a string. -/
structure ValidationOutcome where
  raw_llm_output : Option String
  validated_output : Option String
  validation_passed : Bool
  error : Option String
deriving DecidableEq, Repr

/-- One reask record inside a remote history event, as read through
`r.to_dict().get(...)` in `_call_server`. -/
structure RemoteReask where
  incorrect_value : Option String
  path : Option String
  error_message : Option String
  fix_value : Option String
deriving DecidableEq, Repr

/-- One per-round history event echoed back by the remote service.
`prompt` holds `h.prompt.source` when present. -/
structure RemoteHistoryEvent where
  instructions : Option String
  prompt : Option String
  output : Option String
  parsed_output : Option String
  validated_output : Option String
  reasks : Option (List RemoteReask)
deriving DecidableEq, Repr

/-- One entry of the remote `session_history`, holding its own optional
list of events (`history.history` in `_call_server`). -/
structure RemoteCallRecord where
  history : Option (List RemoteHistoryEvent)
deriving DecidableEq, Repr

/-- The remote validation response (`validation_output` in
`_call_server`): a boolean result, the outputs, and an optional session
history. -/
structure RemoteValidationResult where
  result : Bool
  validated_output : Option String
  raw_llm_response : Option String
  session_history : Option (List RemoteCallRecord)
deriving DecidableEq, Repr

/-- The reask conversion inside the iteration list comprehension of
`_call_server`: each remote reask record becomes a `FieldReAsk` with a
single reconstructed `FailResult`. -/
def convertReask (r : RemoteReask) : FieldReAsk :=
  { incorrect_value := r.incorrect_value
    path := r.path
    fail_results := [{ error_message := r.error_message
                       fix_value := r.fix_value }] }

/-- The per-event `Iteration` construction of `_call_server`: inputs are
rebuilt from the round-tripped fields and the ambient call arguments;
outputs are rebuilt from the event payload, with an absent reask list
becoming the empty list. -/
def convertEvent (llm_output : Option String) (num_reasks : Option Int)
    (full_schema_reask : Option Bool) (h : RemoteHistoryEvent) : Iteration :=
  { inputs :=
      { llm_output := llm_output
        instructions := h.instructions
        prompt := h.prompt
        num_reasks := (num_reasks.getD 0)
        full_schema_reask := full_schema_reask }
    outputs :=
      { raw_output := h.output
        parsed_output := h.parsed_output
        validation_output := h.validated_output
        reasks := (h.reasks.getD []).map convertReask } }

/-- The fixed error string returned when the remote response is empty. -/
def msgEmptyServerResponse : String := "The response from the server was empty!"

/-- `Guard._call_server`, from the point where the remote client has
answered.  `resp` abstracts the value returned by
`self._api_client.validate(...)` (`None` when the service produced no
result payload); `call_log` is the `Optional[Call]` argument.  The payload
construction and the `llm_api` adapter conversions act only on external
values and are omitted; the conditional push of `call_log` onto
`self._history` mutates the guard history, not the call, and is likewise
outside this model.  Returns the possibly extended call together with the
outcome, or the `ValueError` raised when no API client is configured. -/
def call_server (apiClientConfigured : Bool) (llm_output : Option String)
    (num_reasks : Option Int) (full_schema_reask : Option Bool)
    (resp : Option RemoteValidationResult) (call_log : Option Call) :
    Except String (Option Call × ValidationOutcome) :=
  if apiClientConfigured then
    match resp with
    | none =>
      Except.ok (call_log,
        { raw_llm_output := none
          validated_output := none
          validation_passed := false
          error := some msgEmptyServerResponse })
    | some vo =>
      let callLog : Call := call_log.getD { iterations := [] }
      let sessionHistory : List RemoteCallRecord :=
        match vo.session_history with
        | some l => l
        | none => []
      let callLog := sessionHistory.foldl (fun cl rec =>
        match rec.history with
        | none => cl
        | some events =>
          { cl with iterations := cl.iterations
              ++ events.map (convertEvent llm_output num_reasks full_schema_reask) })
        callLog
      Except.ok (some callLog,
        { raw_llm_output := vo.raw_llm_response
          validated_output := vo.validated_output
          validation_passed := vo.result
          error := none })
  else Except.error ("Guard does not have an api client!")

/-- Modelled from the spec: `ValidationOutcome.from_guard_history` lives in
`guardrails.classes.validation_outcome`, whose source is not part of this
file.  Per the specification of the OutcomeAssembler: given a completed
Call, validated output is the last Iteration's validated output, pass is
true iff that Iteration has zero FieldReAsk entries, raw output is that
Iteration's raw output, and error is populated only on terminal abort or
remote empty-response conditions, neither of which applies on this path. -/
def from_guard_history (call : Call) : ValidationOutcome :=
  match call.iterations.getLast? with
  | none =>
    { raw_llm_output := none
      validated_output := none
      validation_passed := false
      error := none }
  | some it =>
    { raw_llm_output := it.outputs.raw_output
      validated_output := it.outputs.validation_output
      validation_passed := it.outputs.reasks.isEmpty
      error := none }

/-- Helper: the fields of a routed `execute` result are exactly the ones
computed by the source: the strategy comes from `selectStrategy`, the
resolved `full_schema_reask` from the caller value with the base-model
fallback, and the retry budget is the caller value, which must have been
present. -/
theorem execute_routed_fields (g g2 : GuardState) (a : ExecArgs)
    (s : Strategy) (fs : Bool) (nr : Int)
    (h : execute g a = (g2, ExecResult.routed s fs nr)) :
    s = selectStrategy g.apiClientConfigured a.supportedServerSide
        a.isCoroutineFn (a.stream.getD false)
    ∧ fs = (match a.fullSchemaReask with
            | none => g.baseModelPresent
            | some b => b)
    ∧ a.numReasks = some nr := by
  simp only [execute, set_num_reasks] at h
  split at h
  · simp at h
  · split at h
    · simp at h
    · split at h
      · simp at h
      · split at h
        · simp at h
        · rename_i nr2 heq
          simp only [Prod.mk.injEq, ExecResult.routed.injEq] at h
          obtain ⟨-, hs, hfs, hnr⟩ := h
          exact ⟨hs.symm, hfs.symm, by rw [heq, hnr]⟩

/-- C4: for every invocation, the effective `full_schema_reask` value is
resolved at invocation start as: the explicit caller value when supplied,
otherwise true iff the Guard holds a base model. -/
theorem execute_resolves_full_schema_reask (g g2 : GuardState) (a : ExecArgs)
    (s : Strategy) (fs : Bool) (nr : Int)
    (h : execute g a = (g2, ExecResult.routed s fs nr)) :
    fs = (match a.fullSchemaReask with
          | none => g.baseModelPresent
          | some b => b) :=
  (execute_routed_fields g g2 a s fs nr h).2.1

/-- C4 witness: a concrete invocation with no caller value and no base
model resolves `full_schema_reask` to false. -/
theorem execute_resolves_full_schema_reask_witness : false = false :=
  execute_resolves_full_schema_reask ⟨true, false, [], none⟩
    ⟨true, false, [], some 1⟩
    ⟨true, false, true, none, some ("p"), none, none, [], some 1, none, none⟩
    Strategy.remote false 1 (by decide)

/-- C1: for every invocation of `_execute` that reaches routing, exactly
one strategy is selected, with priority: remote delegation iff a remote
API client is configured and the target is supported server-side (even if
the target is an asynchronous callable); otherwise asynchronous iff the
target is a coroutine function; otherwise streaming iff a truthy `stream`
keyword was passed; otherwise synchronous. -/
theorem execute_strategy_selection (g g2 : GuardState) (a : ExecArgs)
    (s : Strategy) (fs : Bool) (nr : Int)
    (h : execute g a = (g2, ExecResult.routed s fs nr)) :
    (s = Strategy.remote
      ↔ (g.apiClientConfigured && a.supportedServerSide) = true)
    ∧ (s = Strategy.async
      ↔ (!(g.apiClientConfigured && a.supportedServerSide)
          && a.isCoroutineFn) = true)
    ∧ (s = Strategy.streaming
      ↔ (!(g.apiClientConfigured && a.supportedServerSide)
          && !a.isCoroutineFn && a.stream.getD false) = true)
    ∧ (s = Strategy.sync
      ↔ (!(g.apiClientConfigured && a.supportedServerSide)
          && !a.isCoroutineFn && !(a.stream.getD false)) = true) := by
  obtain ⟨hs, -, -⟩ := execute_routed_fields g g2 a s fs nr h
  subst hs
  cases hA : g.apiClientConfigured <;> cases hS : a.supportedServerSide <;>
    cases hC : a.isCoroutineFn <;> cases hSt : a.stream.getD false <;>
      simp [selectStrategy, hA, hS, hC, hSt]

/-- C1 witness: with an API client configured and a server-supported
target, a concrete invocation routes to remote delegation even though the
target is not a coroutine. -/
theorem execute_strategy_selection_witness :
    (Strategy.remote = Strategy.remote ↔ (true && true) = true)
    ∧ (Strategy.remote = Strategy.async ↔ (!(true && true) && false) = true)
    ∧ (Strategy.remote = Strategy.streaming
        ↔ (!(true && true) && !false && false) = true)
    ∧ (Strategy.remote = Strategy.sync
        ↔ (!(true && true) && !false && !false) = true) :=
  execute_strategy_selection ⟨true, false, [], none⟩ ⟨true, false, [], some 1⟩
    ⟨true, false, true, none, some ("p"), none, none, [], some 1, none, none⟩
    Strategy.remote false 1 (by decide)

/-- C2: when neither a generation target nor a truthy precomputed output
is supplied, or a target is supplied without output and with neither a
truthy prompt nor a truthy message history, `_execute` raises a
`RuntimeError` immediately, before any strategy selection and with no
state change. -/
theorem execute_precondition_config_error (g : GuardState) (a : ExecArgs)
    (h : (a.llmApiPresent = false ∧ optStrTruthy a.llmOutput = false)
      ∨ (a.llmApiPresent = true ∧ optStrTruthy a.llmOutput = false
          ∧ optStrTruthy a.prompt = false
          ∧ optListTruthy a.msgHistory = false)) :
    execute g a = (g, ExecResult.runtimeError msgMissingApiOrOutput)
    ∨ execute g a = (g, ExecResult.runtimeError msgMissingPromptOrHistory) := by
  rcases h with ⟨h1, h2⟩ | ⟨h1, h2, h3, h4⟩
  · left; simp [execute, h1, h2]
  · right; simp [execute, h1, h2, h3, h4]

/-- C2 witness: a concrete call with no target and no output fails with
the first configuration error. -/
theorem execute_precondition_config_error_witness :
    execute ⟨false, false, [], none⟩
        ⟨false, false, false, none, none, none, none, [], none, none, none⟩
      = (⟨false, false, [], none⟩,
          ExecResult.runtimeError msgMissingApiOrOutput)
    ∨ execute ⟨false, false, [], none⟩
        ⟨false, false, false, none, none, none, none, [], none, none, none⟩
      = (⟨false, false, [], none⟩,
          ExecResult.runtimeError msgMissingPromptOrHistory) :=
  execute_precondition_config_error _ _ (Or.inl (by decide))

/-- C5: when remote delegation gets an empty response from the server,
`_call_server` returns a failed `ValidationOutcome` with null validated
and raw output and the fixed error string, appends zero iterations to the
local call, and performs no local retry. -/
theorem call_server_empty_response (llm_output : Option String)
    (num_reasks : Option Int) (full_schema_reask : Option Bool)
    (call_log : Option Call) :
    call_server true llm_output num_reasks full_schema_reask none call_log
      = Except.ok (call_log,
          { raw_llm_output := none
            validated_output := none
            validation_passed := false
            error := some msgEmptyServerResponse }) := rfl

/-- C6: when the caller-supplied retry budget is `None`, `_set_num_reasks`
leaves `_num_reasks` undefined and `__exec` aborts with a fatal
`RuntimeError` instead of continuing to route. -/
theorem execute_num_reasks_none_fatal (g : GuardState) (a : ExecArgs)
    (h1 : (!a.llmApiPresent && !optStrTruthy a.llmOutput) = false)
    (h2 : (!optStrTruthy a.llmOutput && a.llmApiPresent
        && !(optStrTruthy a.prompt || optListTruthy a.msgHistory)) = false)
    (h3 : verify_metadata_requirements a.metadataKeys g.validators = [])
    (hn : a.numReasks = none) :
    execute g a = (set_num_reasks g none,
      ExecResult.runtimeError msgNumReasksNone) := by
  have h1' : ¬(!a.llmApiPresent && !optStrTruthy a.llmOutput) = true := by
    rw [h1]; simp
  have h2' : ¬(!optStrTruthy a.llmOutput && a.llmApiPresent
      && !(optStrTruthy a.prompt || optListTruthy a.msgHistory)) = true := by
    rw [h2]; simp
  rw [execute, if_neg h1', if_neg h2']
  simp [h3, hn, set_num_reasks]

/-- C6 witness: a concrete invocation passing `num_reasks = None` aborts
with the fatal internal error. -/
theorem execute_num_reasks_none_fatal_witness :
    execute ⟨false, false, [], some 2⟩
        ⟨true, false, false, none, some ("p"), none, none, [], none, none, none⟩
      = (set_num_reasks ⟨false, false, [], some 2⟩ none,
          ExecResult.runtimeError msgNumReasksNone) :=
  execute_num_reasks_none_fatal _ _ (by decide) (by decide) (by decide) rfl

/-- C8: assembling the user-facing outcome from a completed call is a
pure function of the last iteration: two calls with the same last
iteration produce identical outcomes, so repeating the construction on
the same call yields the same outcome and the call is not modified. -/
theorem from_guard_history_pure_of_last_iteration (c1 c2 : Call)
    (h : c1.iterations.getLast? = c2.iterations.getLast?) :
    from_guard_history c1 = from_guard_history c2 := by
  simp only [from_guard_history, h]

/-- C8 witness: two concrete calls sharing their final iteration yield
the same outcome. -/
theorem from_guard_history_pure_of_last_iteration_witness :
    from_guard_history
        ⟨[⟨⟨none, none, none, 0, none⟩, ⟨some ("ok"), none, some ("ok"), []⟩⟩]⟩
      = from_guard_history
        ⟨[⟨⟨none, none, some ("p"), 1, none⟩, ⟨none, none, none, []⟩⟩,
          ⟨⟨none, none, none, 0, none⟩, ⟨some ("ok"), none, some ("ok"), []⟩⟩]⟩ :=
  from_guard_history_pure_of_last_iteration _ _ (by decide)

/-- C9: a call to `parse` whose keyword arguments do not contain
`msg_history` raises a `KeyError` from `kwargs.pop` before `_execute` is
reached. -/
theorem parse_missing_msg_history_key_error (g : GuardState) (eo : ExecOpts)
    (llm_output : String) (llmApiPresent isCoroutineFn supportedServerSide : Bool)
    (metadataKeys : List String) (num_reasks : Option Int)
    (full_schema_reask : Option Bool) (kw : ParseKwargs)
    (h : kw.msgHistory = none) :
    parse g eo llm_output llmApiPresent isCoroutineFn supportedServerSide
        metadataKeys num_reasks full_schema_reask kw
      = ParseResult.keyError ("msg_history") := by
  simp [parse, h]

/-- C9 witness: a concrete `parse` call without a `msg_history` keyword
fails with the `KeyError`. -/
theorem parse_missing_msg_history_key_error_witness :
    parse ⟨false, false, [], none⟩ ⟨some ("p"), none⟩ "output"
        false false false [] none none ⟨none, none, none, none⟩
      = ParseResult.keyError ("msg_history") :=
  parse_missing_msg_history_key_error _ _ _ _ _ _ _ _ _ _ rfl

/-- C10: `configure` called with `num_reasks = 0` leaves the stored retry
budget unchanged (the zero is discarded by the truthiness test), any
positive value updates it, and `configure` can never make the stored
budget become 0 when it was not already 0. -/
theorem configure_zero_num_reasks_discarded (g : GuardState) (n : Int)
    (hn : 0 < n) :
    configure g (some 0) = g
    ∧ (configure g (some n)).numReasks = some n
    ∧ ∀ o, (configure g o).numReasks = some 0 → g.numReasks = some 0 := by
  refine ⟨by simp [configure], ?_, ?_⟩
  · simp [configure, set_num_reasks, (show ¬n = 0 by omega)]
  · intro o ho
    match o with
    | none => exact ho
    | some m =>
      by_cases hm : m = 0
      · subst hm; simpa [configure] using ho
      · simp [configure, set_num_reasks, hm] at ho

/-- C10 witness: with a configured budget of 5, `configure` with 0 is a
no-op while `configure` with 3 updates the budget. -/
theorem configure_zero_num_reasks_discarded_witness :
    configure ⟨false, false, [], some 5⟩ (some 0) = ⟨false, false, [], some 5⟩
    ∧ (configure ⟨false, false, [], some 5⟩ (some 3)).numReasks = some 3 :=
  ⟨(configure_zero_num_reasks_discarded ⟨false, false, [], some 5⟩ 3
      (by decide)).1,
   (configure_zero_num_reasks_discarded ⟨false, false, [], some 5⟩ 3
      (by decide)).2.1⟩

/-- Helper: membership in the list of missing keys reported by
`verify_metadata_requirements` is exactly being required by some
validator while absent from the supplied metadata. -/
theorem mem_verify_metadata_requirements (md : List String)
    (vs : List Validator) (k : String) :
    k ∈ verify_metadata_requirements md vs
      ↔ (∃ v ∈ vs, k ∈ v.required_metadata_keys) ∧ md.contains k = false := by
  simp [verify_metadata_requirements, List.mem_filter, List.mem_flatMap,
    Bool.not_eq_true']

/-- C3: when some resolved validator requires a metadata key absent from
the supplied metadata, `_execute` fails before routing with a
`ValueError` whose key list is exactly the set of all missing keys, not
just the first one. -/
theorem execute_missing_metadata_names_all_keys (g : GuardState)
    (a : ExecArgs)
    (h1 : (!a.llmApiPresent && !optStrTruthy a.llmOutput) = false)
    (h2 : (!optStrTruthy a.llmOutput && a.llmApiPresent
        && !(optStrTruthy a.prompt || optListTruthy a.msgHistory)) = false)
    (hk : ∃ v ∈ g.validators, ∃ k ∈ v.required_metadata_keys,
        a.metadataKeys.contains k = false) :
    execute g a = (g, ExecResult.valueError
        (missingKeysMessage
          (verify_metadata_requirements a.metadataKeys g.validators))
        (verify_metadata_requirements a.metadataKeys g.validators))
    ∧ ∀ k, k ∈ verify_metadata_requirements a.metadataKeys g.validators
        ↔ (∃ v ∈ g.validators, k ∈ v.required_metadata_keys)
          ∧ a.metadataKeys.contains k = false := by
  obtain ⟨v, hv, kk, hkk, hAbs⟩ := hk
  have hmem : kk ∈ verify_metadata_requirements a.metadataKeys g.validators :=
    (mem_verify_metadata_requirements _ _ _).mpr ⟨⟨v, hv, hkk⟩, hAbs⟩
  have hne : (verify_metadata_requirements a.metadataKeys g.validators).isEmpty
      = false := by
    cases hcase : verify_metadata_requirements a.metadataKeys g.validators with
    | nil => rw [hcase] at hmem; exact absurd hmem (List.not_mem_nil kk)
    | cons x xs => rfl
  have h1' : ¬(!a.llmApiPresent && !optStrTruthy a.llmOutput) = true := by
    rw [h1]; simp
  have h2' : ¬(!optStrTruthy a.llmOutput && a.llmApiPresent
      && !(optStrTruthy a.prompt || optListTruthy a.msgHistory)) = true := by
    rw [h2]; simp
  refine ⟨?_, fun k => mem_verify_metadata_requirements _ _ k⟩
  rw [execute, if_neg h1', if_neg h2']
  simp [hne]

/-- C3 witness: a validator requiring keys `k1` and `k2` with empty
supplied metadata makes a concrete invocation fail with both keys
reported. -/
theorem execute_missing_metadata_names_all_keys_witness :
    execute ⟨false, false, [⟨"checker", "noop", [], ["k1", "k2"]⟩], none⟩
        ⟨true, false, false, none, some ("p"), none, none, [], some 1, none, none⟩
      = (⟨false, false, [⟨"checker", "noop", [], ["k1", "k2"]⟩], none⟩,
          ExecResult.valueError (missingKeysMessage ["k1", "k2"]) ["k1", "k2"]) :=
  (execute_missing_metadata_names_all_keys
    ⟨false, false, [⟨"checker", "noop", [], ["k1", "k2"]⟩], none⟩
    ⟨true, false, false, none, some ("p"), none, none, [], some 1, none, none⟩
    (by decide) (by decide) (by decide)).1

/-- Helper: `mapSet` preserves the non-empty-entries invariant when the
written list is non-empty. -/
theorem mapSet_invariant (m : ValidatorMap) (k : String)
    (v : List Validator) (hm : validatorMapInvariant m) (hv : v ≠ []) :
    validatorMapInvariant (mapSet m k v) := by
  revert hm
  induction m with
  | nil =>
    intro _ p hp
    simp only [mapSet, List.mem_singleton] at hp
    subst hp; exact hv
  | cons hd tl ih =>
    obtain ⟨k1, v1⟩ := hd
    intro hm p hp
    simp only [mapSet] at hp
    split at hp
    · rcases List.mem_cons.mp hp with h | h
      · subst h; exact hv
      · exact hm _ (List.mem_cons_of_mem _ h)
    · rcases List.mem_cons.mp hp with h | h
      · subst h; exact hm _ (List.mem_cons_self _ _)
      · exact ih (fun q hq => hm q (List.mem_cons_of_mem _ hq)) p h

/-- Helper: one step of `_fill_validator_map` preserves the invariant:
either the map is unchanged, or a key is written with an entry extended
by one freshly hydrated validator, which is non-empty. -/
theorem fillStep_invariant (mk : String → String → Validator)
    (m : ValidatorMap) (ref : ValidatorReference)
    (hm : validatorMapInvariant m) :
    validatorMapInvariant (fillStep mk m ref) := by
  simp only [fillStep]
  split
  · exact hm
  · exact mapSet_invariant _ _ _ hm (by simp)

/-- Helper: the `_fill_validator_map` fold preserves the invariant. -/
theorem fill_validator_map_invariant (mk : String → String → Validator)
    (refs : List ValidatorReference) :
    ∀ m : ValidatorMap, validatorMapInvariant m →
      validatorMapInvariant (fill_validator_map mk m refs) := by
  induction refs with
  | nil => exact fun m hm => hm
  | cons r rs ih =>
    intro m hm
    simp only [fill_validator_map, List.foldl_cons] at *
    exact ih _ (fillStep_invariant mk m r hm)

/-- Helper: a successful `__add_validator` preserves the invariant: the
written entry is the previous entry extended by the new validator. -/
theorem add_validator_invariant (b : Bool) (m : ValidatorMap) (v : Validator)
    (onPath : String) (m2 : ValidatorMap) (hm : validatorMapInvariant m)
    (h : add_validator b m v onPath = Except.ok m2) :
    validatorMapInvariant m2 := by
  simp only [add_validator] at h
  split at h
  · exact absurd h (by simp)
  · simp only [Except.ok.injEq] at h
    subst h
    exact mapSet_invariant _ _ _ hm (by simp)

/-- Helper: the `use_many` loop over `__add_validator` preserves the
invariant. -/
theorem foldlM_add_validator_invariant (b : Bool) (onPath : String) :
    ∀ (vs : List Validator) (m m2 : ValidatorMap),
      validatorMapInvariant m →
      vs.foldlM (fun acc v => add_validator b acc v onPath) m
        = Except.ok m2 →
      validatorMapInvariant m2
  | [], m, m2, hm, h => by
    simp only [List.foldlM_nil, pure, Except.pure, Except.ok.injEq] at h
    subst h; exact hm
  | v :: vs, m, m2, hm, h => by
    rw [List.foldlM_cons] at h
    cases hadd : add_validator b m v onPath with
    | error e =>
      rw [hadd] at h
      simp only [bind, Except.bind] at h
      exact absurd h (by simp)
    | ok m1 =>
      rw [hadd] at h
      simp only [bind, Except.bind] at h
      exact foldlM_add_validator_invariant b onPath vs m1 m2
        (add_validator_invariant b m v onPath m1 hm hadd) h

/-- A result of a validator-adding operation preserves the non-empty
invariant whenever it succeeds. -/
def okPreservesInvariant (e : Except String ValidatorMap) : Prop :=
  ∀ m2, e = Except.ok m2 → validatorMapInvariant m2

/-- C7: every path key present in the validator map is associated with a
non-empty validator list: the invariant holds after construction
(`_fill_validator_map` starting from the empty map) and is preserved by
`use`, `use_many` and `__add_validator`. -/
theorem validator_map_nonempty_invariant (mk : String → String → Validator)
    (refs : List ValidatorReference) (b : Bool) (m : ValidatorMap)
    (v : Validator) (vs : List Validator) (onPath : String)
    (hm : validatorMapInvariant m) :
    validatorMapInvariant (fill_validator_map mk [] refs)
    ∧ okPreservesInvariant (add_validator b m v onPath)
    ∧ okPreservesInvariant (use b m v onPath)
    ∧ okPreservesInvariant (use_many b m vs onPath) := by
  refine ⟨fill_validator_map_invariant mk refs []
      (fun p hp => absurd hp (List.not_mem_nil p)), ?_, ?_, ?_⟩
  · exact fun m2 h => add_validator_invariant b m v onPath m2 hm h
  · exact fun m2 h => add_validator_invariant b m v onPath m2 hm h
  · intro m2 h
    simp only [use_many] at h
    split at h
    · exact absurd h (by simp)
    · exact foldlM_add_validator_invariant b onPath vs m m2 hm h

/-- C7 witness: the invariant holds concretely after filling from one
reference and is preserved by the adding operations starting from the
empty map. -/
theorem validator_map_nonempty_invariant_witness :
    validatorMapInvariant (fill_validator_map
        (fun s f => ⟨s, f, [], []⟩) []
        [⟨"valid-length", "$", "noop", []⟩])
    ∧ okPreservesInvariant
        (add_validator true [] ⟨"valid-length", "noop", [], []⟩ "output")
    ∧ okPreservesInvariant
        (use true [] ⟨"valid-length", "noop", [], []⟩ "output")
    ∧ okPreservesInvariant
        (use_many true [] [⟨"valid-length", "noop", [], []⟩] "output") :=
  validator_map_nonempty_invariant (fun s f => ⟨s, f, [], []⟩)
    [⟨"valid-length", "$", "noop", []⟩] true []
    ⟨"valid-length", "noop", [], []⟩ [⟨"valid-length", "noop", [], []⟩]
    "output" (fun p hp => absurd hp (List.not_mem_nil p))

end Guardrails
